import Mathlib

/-!
Verification of the FindME missing-persons platform backend against its
specification.  The Python source is shallowly embedded: database tables
become Lean lists of records, SQL aggregate queries become list
operations, and the imperative loops of the statistics routine become
folds.  All definitions follow the source files under `app/` and
`backend/`; theorems settle the specification's claims about them.
-/

namespace FindME

/-- A `datetime` value as far as this code observes it: the calendar
year and month (used by `strftime("%Y-%m")` style keys) plus `sub`, an
abstract totally-ordered remainder (day, time of day, microseconds)
that only matters for comparisons such as `ORDER BY created_at DESC`. -/
structure DTime where
  year : Nat
  month : Nat
  sub : Nat
deriving DecidableEq

/-- Lexicographic `<=` on datetimes (year, then month, then the rest),
matching chronological comparison of `datetime` values. -/
def DTime.le (a b : DTime) : Bool :=
  a.year < b.year ||
    (a.year == b.year &&
      (a.month < b.month || (a.month == b.month && a.sub ≤ b.sub)))

theorem DTime.le_trans (a b c : DTime) (hab : DTime.le a b = true)
    (hbc : DTime.le b c = true) : DTime.le a c = true := by
  simp only [DTime.le, Bool.or_eq_true, Bool.and_eq_true, decide_eq_true_eq,
    beq_iff_eq] at *
  omega

theorem DTime.le_total (a b : DTime) :
    (DTime.le a b || DTime.le b a) = true := by
  simp only [DTime.le, Bool.or_eq_true, Bool.and_eq_true, decide_eq_true_eq,
    beq_iff_eq]
  omega

/-- `submission_status_enum` from `app/entities/submission.py`. -/
inductive SubStatus where
  | pending
  | published
  | rejected
  | found_alive
  | found_dead
deriving DecidableEq

/-- A row of the `submission` table (`app/entities/submission.py`).
Nullable columns are `Option`s; `height`/`weight`/coordinates are SQL
floats, embedded as rationals; `images` is the nullable JSON array of
URLs; `created_at` is non-null. -/
structure Submission where
  id : Nat
  title : String
  full_name : String
  dob : Option String
  gender : Option String
  race : Option String
  height : Option ℚ
  weight : Option ℚ
  province : Option String
  description : Option String
  status : SubStatus
  last_seen_address : Option String
  last_seen_place_id : Option String
  last_seen_lat : Option ℚ
  last_seen_lng : Option ℚ
  images : Option (List String)
  user_id : Option Nat
  created_at : DTime
deriving DecidableEq

/-- A SQL `GROUP BY key` / `COUNT(id)` result set, materialised the way
the repository's dict comprehension does: one entry per distinct key,
carrying the number of rows having that key. -/
def groupCounts {α : Type} [DecidableEq α] (keys : List α) : List (α × Nat) :=
  keys.dedup.map (fun k => (k, keys.count k))

/-- `dict.get(k, 0)` on an association list of counts. -/
def getD0 {α : Type} [DecidableEq α] (d : List (α × Nat)) (k : α) : Nat :=
  match d.find? (fun e => e.1 = k) with
  | some e => e.2
  | none => 0

/-- The `public_status` tuple of `SubmissionRepository.summarize`. -/
def publicStatuses : List SubStatus :=
  [.published, .found_alive, .found_dead]

/-- The loop accumulating `img_total` and `items` over the selected
`images` columns: null lists are skipped entirely, non-null lists add
their length to the total and bump the item count. -/
def avgImagesFold (ls : List (Option (List String))) : Nat × Nat :=
  ls.foldl
    (fun acc imgs =>
      match imgs with
      | none => acc
      | some l => (acc.1 + l.length, acc.2 + 1))
    (0, 0)

/-- Zero-left-pad a numeral string to width `w` (`f"{y:04d}"` and
`f"{m:02d}"` on the nonnegative values reachable here). -/
def padZ (w : Nat) (n : Nat) : String :=
  String.mk (List.replicate (w - (toString n).length) '0') ++ toString n

/-- The `f"{y:04d}-{m:02d}"` month key.  Years/months are carried as
integers because the timeline computation subtracts one from the year;
`datetime` years are at least 1, so the values formatted here are
nonnegative. -/
def fmtYYYYMM (y m : Int) : String :=
  padZ 4 y.toNat ++ "-" ++ padZ 2 m.toNat

/-- The calendar month the loop index `i` of the timeline loop denotes:
`y = now.year if now.month - i > 0 else now.year - 1` and
`m = ((now.month - i - 1) % 12) + 1` (Python `%` is `Int.emod`). -/
def timelineMonth (nowY nowM : Int) (i : Nat) : Int × Int :=
  (if 0 < nowM - i then nowY else nowY - 1, (nowM - (i : Int) - 1) % 12 + 1)

/-- The `(year, month)` pair a submission's `created_at` contributes to
the `months` counter.  `dt.strftime("%Y-%m")` determines exactly this
pair on `datetime`'s domain (the month part is always two digits
`01`-`12`, the prefix before the dash is the year), so the counter is
keyed by the pair. -/
def createdMonth (s : Submission) : Int × Int :=
  ((s.created_at.year : Int), (s.created_at.month : Int))

/-- One entry of the `monthly_new` timeline (`{"month": ..., "count": ...}`). -/
structure MonthCount where
  month : String
  count : Nat
deriving DecidableEq

/-- The `monthly_new` construction of `SubmissionRepository.summarize`:
count submissions per `%Y-%m` month of `created_at`, then emit the last
12 months (i = 11 down to 0, hence oldest first), zero-filled via
`months.get(key, 0)`. -/
def monthlyNew (subs : List Submission) (nowY nowM : Int) : List MonthCount :=
  let months := groupCounts (subs.map createdMonth)
  (List.range 12).map (fun j =>
    let i := 11 - j
    let ym := timelineMonth nowY nowM i
    { month := fmtYYYYMM ym.1 ym.2, count := getD0 months ym })

/-- The summary dict built by `SubmissionRepository.summarize`.  The
user-statistics entries (`users_total`, `active_users`,
`inactive_users`, `admins_total`, `top_submitters`) aggregate the user
and role tables and are outside every claim, so they are not modelled
here; all submission-derived entries are. -/
structure Summary where
  total_submissions : Nat
  status_counts : List (SubStatus × Nat)
  province_counts : List (String × Nat)
  gender_counts : List (String × Nat)
  race_counts : List (String × Nat)
  public_counts : Nat × Nat
  found_rate : ℚ
  found_alive_count : Nat
  found_dead_count : Nat
  avg_images_per_submission : ℚ
  monthly_new : List MonthCount
deriving DecidableEq

/-- `SubmissionRepository.summarize` over the submission table `subs`,
with `datetime.utcnow()` supplied as the pair `(nowY, nowM)` (its other
components are unused).  Group-by queries over nullable columns drop
the `None` key, as the source's `if k is not None` comprehensions do. -/
def SubmissionRepository.summarize (subs : List Submission)
    (nowY nowM : Int) : Summary :=
  let total := subs.length
  let status_counts := groupCounts (subs.map (fun s => s.status))
  let found_alive := getD0 status_counts .found_alive
  let found_dead := getD0 status_counts .found_dead
  let found_total := found_alive + found_dead
  let public_count := subs.countP (fun s => s.status ∈ publicStatuses)
  let imgAcc := avgImagesFold (subs.map (fun s => s.images))
  { total_submissions := total
    status_counts := status_counts
    province_counts := groupCounts ((subs.map (fun s => s.province)).filterMap id)
    gender_counts := groupCounts ((subs.map (fun s => s.gender)).filterMap id)
    race_counts := groupCounts ((subs.map (fun s => s.race)).filterMap id)
    public_counts := (public_count, total - public_count)
    found_rate := if 0 < total then (found_total : ℚ) / (total : ℚ) else 0
    found_alive_count := found_alive
    found_dead_count := found_dead
    avg_images_per_submission :=
      if 0 < imgAcc.2 then (imgAcc.1 : ℚ) / (imgAcc.2 : ℚ) else 0
    monthly_new := monthlyNew subs nowY nowM }

/-! ## Submission listing (`GET /submissions`) -/

/-- `ORDER BY created_at DESC`: the rows sorted newest first. -/
def sortByCreatedDesc (subs : List Submission) : List Submission :=
  subs.mergeSort (fun a b => DTime.le b.created_at a.created_at)

/-- `SubmissionRepository.list`: cap the limit with
`max(0, min(limit, 1000))`, order newest first, apply offset then
limit. -/
def SubmissionRepository.list (subs : List Submission)
    (limit offset : Int) : List Submission :=
  let safe_limit := max 0 (min limit 1000)
  ((sortByCreatedDesc subs).drop offset.toNat).take safe_limit.toNat

/-- `SubmissionService.list`: re-caps the limit the same way before
delegating to the repository. -/
def SubmissionService.list (subs : List Submission)
    (limit offset : Int) : List Submission :=
  let safe_limit := max 0 (min limit 1000)
  SubmissionRepository.list subs safe_limit offset

/-- The `list_submissions` controller: clamp `page` to at least 1 and
`limit` to `[1, 1000]`, derive the offset, and call the service. -/
def list_submissions (subs : List Submission) (page limit : Int) :
    List Submission :=
  let page' := max 1 page
  let limit' := max 1 (min limit 1000)
  let offset := (page' - 1) * limit'
  SubmissionService.list subs limit' offset

/-! ## TTL cache (`app/core/cache.py`) and the cached summary -/

/-- A cache key as built by `ttl_cache`'s wrapper:
`(func.__module__, func.__qualname__, args, tuple(sorted(kwargs.items())))`.
For the decorated bound method `SubmissionService.summarize`, `args` is
the single-element tuple `(self,)` and `kwargs` is empty, so the key
reduces to the module, the qualified name, and the identity of the
service instance (here a numeric instance id; distinct `SubmissionService`
objects compare unequal under Python's default identity equality). -/
structure CacheKey where
  module : String
  qualname : String
  instId : Nat
deriving DecidableEq

/-- The `TTLCache._data` dict: each key maps to `(expires_at, value)`.
Time is in whole seconds (`time.time()`). -/
def TTLCacheData := List (CacheKey × (Nat × Summary))

/-- `TTLCache.get`: a present, unexpired entry (`expires_at >= now`)
yields its value; an expired entry is deleted; otherwise `None`.
Returns the possibly-updated map alongside the result. -/
def TTLCache.get (c : TTLCacheData) (now : Nat) (k : CacheKey) :
    Option Summary × TTLCacheData :=
  match c.find? (fun e => e.1 = k) with
  | some e => if now ≤ e.2.1 then (some e.2.2, c)
              else (none, c.filter (fun e => ¬ (e.1 = k)))
  | none => (none, c)

/-- `TTLCache.set`: store `value` under `key` with expiry
`time.time() + ttl_seconds` (dict assignment overwrites). -/
def TTLCache.set (c : TTLCacheData) (now : Nat) (k : CacheKey)
    (v : Summary) (ttl : Nat) : TTLCacheData :=
  c.filter (fun e => ¬ (e.1 = k)) ++ [(k, (now + ttl, v))]

/-- The key `ttl_cache` builds for `SubmissionService.summarize` on the
service instance `inst`. -/
def summarizeKey (inst : Nat) : CacheKey :=
  { module := "app.services.submission_service"
    qualname := "SubmissionService.summarize"
    instId := inst }

/-- `SubmissionService.summarize` under `@ttl_cache(ttl_seconds=60)`:
look the key up in the global cache; on a hit return the cached value
(a `Summary` is never `None`, so the wrapper's `is not None` test
succeeds); on a miss recompute from the current database state and
store the result for 60 seconds.  The returned `Bool` records whether
the underlying routine was re-run. -/
def SubmissionService.summarizeCached (c : TTLCacheData) (now : Nat)
    (inst : Nat) (subs : List Submission) (nowY nowM : Int) :
    Summary × TTLCacheData × Bool :=
  let key := summarizeKey inst
  match TTLCache.get c now key with
  | (some v, c') => (v, c', false)
  | (none, c') =>
    let r := SubmissionRepository.summarize subs nowY nowM
    (r, TTLCache.set c' now key r 60, true)

/-! ## Role assignment (`backend/repositories/users.py`) -/

/-- A row of the `user_role` table: `(user_id, role_id)`. -/
def UserRoleTable := List (Nat × Nat)

/-- `UserRepository.add_role`: delete every `UserRole` row of this user,
then add the new mapping. -/
def UserRepository.add_role (tbl : UserRoleTable) (user_id role_id : Nat) :
    UserRoleTable :=
  tbl.filter (fun ur => ¬ (ur.1 = user_id)) ++ [(user_id, role_id)]

/-- The role mappings a user holds in the table. -/
def rolesOf (tbl : UserRoleTable) (user_id : Nat) : UserRoleTable :=
  tbl.filter (fun ur => ur.1 = user_id)

/-! ## Comments (`backend/routers/comments.py`, `backend/services/comment.py`) -/

/-- `comment_status` values. -/
inductive CStatus where
  | pending
  | approved
  | rejected
deriving DecidableEq

/-- A row of the `comment` table. -/
structure CommentRec where
  id : Nat
  submission_id : Nat
  user_id : Option Nat
  body : String
  image_url : Option String
  status : CStatus
  rejection_reason : Option String
  created_at : DTime
deriving DecidableEq

/-- An uploaded file as the comment endpoint inspects it: its (possibly
absent or empty) content type, and whether writing it to disk would
succeed. -/
structure UploadImage where
  content_type : Option String
  saveOk : Bool

/-- The `create_comment` endpoint, returning either an HTTP error code
or the stored comment row.  Admins are refused (403); a non-image
content type is refused (400); a failed file write is a 500; otherwise
the comment is created with `status="pending"`, with `image_url` set
exactly when an image was uploaded. -/
def create_comment (roleNames : List (Option String))
    (submission_id : Nat) (userId : Nat) (body : String)
    (image : Option UploadImage) (imageUrl : String) (newId : Nat)
    (now : DTime) : Except Nat CommentRec :=
  if roleNames.any (fun r => (r.getD "").toLower == "admin") then
    .error 403
  else
    let mkComment (u : Option String) : CommentRec :=
      { id := newId, submission_id := submission_id
        user_id := some userId, body := body, image_url := u
        status := .pending, rejection_reason := none, created_at := now }
    match image with
    | none => .ok (mkComment none)
    | some img =>
      match img.content_type with
      | none => .error 400
      | some ct =>
        if ¬ (ct.startsWith "image/") then .error 400
        else if ¬ img.saveOk then .error 500
        else .ok (mkComment (some imageUrl))

/-- `CommentRepository.list_by_submission(submission_id, status)`:
rows of the submission, optionally filtered by status, newest first. -/
def CommentRepository.list_by_submission (tbl : List CommentRec)
    (submission_id : Nat) (status : Option CStatus) : List CommentRec :=
  let rows := tbl.filter (fun c =>
    decide (c.submission_id = submission_id) &&
      match status with
      | some st => decide (c.status = st)
      | none => true)
  rows.mergeSort (fun a b => DTime.le b.created_at a.created_at)

/-- `CommentService.list_by_submission_public`: the repository listing
restricted to `status="approved"`. -/
def CommentService.list_by_submission_public (tbl : List CommentRec)
    (submission_id : Nat) : List CommentRec :=
  CommentRepository.list_by_submission tbl submission_id (some .approved)

/-! ## Age progression (`backend/services/age_progression.py`) -/

/-- One attempt against an external HF Space: `out` is the `out_bytes`
the attempt produced (`none` when `predict`/result reading raised), and
`saveOk` is whether writing the enhanced output to the cache path would
succeed (a failed write raises inside the `try`, which the loop catches
before moving to the next Space). -/
structure APSpaceAttempt where
  out : Option (List Nat)
  saveOk : Bool

/-- The environment `generate_age_progression` runs against: whether
the cache file already exists, the downloaded source bytes (`none` when
the download raised), the outcomes of the candidate Spaces in priority
order, whether the fallback cache write would succeed, and the image
enhancement performed by Pillow (an arbitrary byte transformation; its
pixels are irrelevant here). -/
structure APEnv where
  cacheHit : Bool
  download : Option (List Nat)
  spaces : List APSpaceAttempt
  fallbackSaveOk : Bool
  enhance : List Nat → List Nat

/-- What the routine produced: the returned URL (or `None`), and the
bytes written to the cache file, when any were. -/
structure APOutcome where
  url : Option String
  cachedBytes : Option (List Nat)

/-- The Space loop: the first attempt whose output bytes are non-empty
(`if not out_bytes: raise`) and whose cache write succeeds wins; every
other attempt's exception is caught and the loop continues. -/
def trySpaces : List APSpaceAttempt → Option (List Nat)
  | [] => none
  | a :: rest =>
    match a.out with
    | some b => if b ≠ [] ∧ a.saveOk then some b else trySpaces rest
    | none => trySpaces rest

/-- The public URL of the cache file (`urllib.parse.quote` leaves the
filename to the caller as `fname`). -/
def apUrl (baseUrl fname : String) : String :=
  baseUrl ++ "/files/age_progression/" ++ fname

/-- `generate_age_progression`: an existing cache file is returned
immediately; a failed download returns `None`; otherwise the Spaces are
tried in order and the winner's enhanced output is cached and returned;
if all fail, the enhanced original is cached and returned — unless the
downloaded bytes are empty (falsy) or the fallback write itself raises,
in which case the routine returns `None`. -/
def generate_age_progression (env : APEnv) (baseUrl fname : String) :
    APOutcome :=
  if env.cacheHit then { url := some (apUrl baseUrl fname), cachedBytes := none }
  else
    match env.download with
    | none => { url := none, cachedBytes := none }
    | some src =>
      match trySpaces env.spaces with
      | some b =>
        { url := some (apUrl baseUrl fname), cachedBytes := some (env.enhance b) }
      | none =>
        if src ≠ [] ∧ env.fallbackSaveOk then
          { url := some (apUrl baseUrl fname)
            cachedBytes := some (env.enhance src) }
        else { url := none, cachedBytes := none }

/-- The age-progression endpoint's final step: `if not url: raise 502`
(`url` is falsy when it is `None` or the empty string), else return it. -/
def ageProgressionRespond (url : Option String) : Except Nat String :=
  match url with
  | none => .error 502
  | some u => if u = "" then .error 502 else .ok u

/-! ## Submission update (`SubmissionRepository.update`) -/

/-- The keyword arguments `SubmissionService.update` forwards to
`SubmissionRepository.update`, all optional (`None` means the client
did not supply the field). -/
structure SubmissionUpdate where
  title : Option String
  full_name : Option String
  dob : Option String
  gender : Option String
  race : Option String
  height : Option ℚ
  weight : Option ℚ
  province : Option String
  description : Option String
  status : Option SubStatus
  last_seen_address : Option String
  last_seen_place_id : Option String
  last_seen_lat : Option ℚ
  last_seen_lng : Option ℚ
  images : Option (List String)

/-- The field loop of `SubmissionRepository.update` applied to a
fetched row: every attribute whose supplied value `is not None` is
assigned, all others are left as they were (`id`, `user_id` and
`created_at` are never in the kwargs). -/
def SubmissionRepository.updateFields (s : Submission)
    (u : SubmissionUpdate) : Submission :=
  { s with
    title := u.title.getD s.title
    full_name := u.full_name.getD s.full_name
    dob := (u.dob.map some).getD s.dob
    gender := (u.gender.map some).getD s.gender
    race := (u.race.map some).getD s.race
    height := (u.height.map some).getD s.height
    weight := (u.weight.map some).getD s.weight
    province := (u.province.map some).getD s.province
    description := (u.description.map some).getD s.description
    status := u.status.getD s.status
    last_seen_address := (u.last_seen_address.map some).getD s.last_seen_address
    last_seen_place_id := (u.last_seen_place_id.map some).getD s.last_seen_place_id
    last_seen_lat := (u.last_seen_lat.map some).getD s.last_seen_lat
    last_seen_lng := (u.last_seen_lng.map some).getD s.last_seen_lng
    images := (u.images.map some).getD s.images }

/-- `SubmissionRepository.update`: fetch by id (`None` when absent),
then apply the field loop. -/
def SubmissionRepository.update (tbl : List Submission) (id : Nat)
    (u : SubmissionUpdate) : Option Submission :=
  match tbl.find? (fun s => s.id = id) with
  | none => none
  | some s => some (SubmissionRepository.updateFields s u)

/-! ## Single-submission endpoint (`get_submission`) -/

/-- `SubmissionRepository.get_by_id` over the table. -/
def SubmissionRepository.get_by_id (tbl : List Submission) (id : Nat) :
    Option Submission :=
  tbl.find? (fun s => s.id = id)

/-- The `GET /submissions/{id}` controller: 404 when the row is absent
or its status is not one of the public statuses, else the row. -/
def get_submission (tbl : List Submission) (id : Nat) :
    Except Nat Submission :=
  match SubmissionRepository.get_by_id tbl id with
  | none => .error 404
  | some item =>
    if item.status ∈ publicStatuses then .ok item else .error 404

/-! ## Helper lemmas -/

theorem find?_self_eq {α : Type} [DecidableEq α] (l : List α) (k : α) :
    l.find? (fun x => x = k) = if k ∈ l then some k else none := by
  induction l with
  | nil => rfl
  | cons a l ih =>
    by_cases h : a = k
    · subst h; simp [List.find?_cons]
    · simp [List.find?_cons, h, ih, Ne.symm h]

theorem find?_map_keyed {κ β : Type} [DecidableEq κ] (g : κ → β) (l : List κ)
    (k : κ) :
    (l.map (fun x => (x, g x))).find? (fun e => e.1 = k) =
      (l.find? (fun x => x = k)).map (fun x => (x, g x)) := by
  induction l with
  | nil => rfl
  | cons a l ih => by_cases h : a = k <;> simp [List.find?_cons, h, ih]

theorem getD0_groupCounts {α : Type} [DecidableEq α] (keys : List α) (k : α) :
    getD0 (groupCounts keys) k = keys.count k := by
  unfold getD0 groupCounts
  rw [find?_map_keyed, find?_self_eq]
  by_cases h : k ∈ keys.dedup
  · simp [h]
  · rw [List.mem_dedup] at h
    simp [List.mem_dedup, h, List.count_eq_zero.mpr h]

theorem getD0_groupCounts_map {α κ : Type} [DecidableEq κ] (f : α → κ)
    (l : List α) (k : κ) :
    getD0 (groupCounts (l.map f)) k = l.countP (fun x => f x = k) := by
  rw [getD0_groupCounts, List.count, List.countP_map]
  apply List.countP_congr
  intro x _
  simp [Function.comp, beq_iff_eq]

/-! ## C2: role assignment -/

/-- C2: `UserRepository.add_role` first deletes every role mapping of
the user and then inserts exactly one new mapping, so after any role
assignment the user holds exactly one mapping — the one just assigned.
(The "admin after user" scenario is the instance `tbl = [(u, r₀)]`.) -/
theorem C2_add_role_single_mapping (tbl : UserRoleTable) (u r : Nat) :
    rolesOf (UserRepository.add_role tbl u r) u = [(u, r)] ∧
    (rolesOf (UserRepository.add_role tbl u r) u).length = 1 := by
  have h : rolesOf (UserRepository.add_role tbl u r) u = [(u, r)] := by
    unfold rolesOf UserRepository.add_role
    rw [List.filter_append, List.filter_filter]
    simp
  exact ⟨h, by rw [h]; rfl⟩

/-! ## C3: found rate -/

/-- C3: in the summary, `found_rate` is the number of `found_alive`
plus `found_dead` submissions over the total, and `0` when the table is
empty; hence it is `0` whenever no submission has a `found_*` status. -/
theorem C3_found_rate (subs : List Submission) (nowY nowM : Int) :
    ((SubmissionRepository.summarize subs nowY nowM).found_rate =
      if subs.length = 0 then 0
      else (((subs.countP (fun s => s.status = .found_alive) : ℚ) +
             (subs.countP (fun s => s.status = .found_dead) : ℚ)) /
            (subs.length : ℚ))) ∧
    ((∀ s ∈ subs, s.status ≠ .found_alive ∧ s.status ≠ .found_dead) →
      (SubmissionRepository.summarize subs nowY nowM).found_rate = 0) := by
  have hfa : getD0 (groupCounts (subs.map (fun s => s.status))) .found_alive =
      subs.countP (fun s => s.status = .found_alive) :=
    getD0_groupCounts_map _ _ _
  have hfd : getD0 (groupCounts (subs.map (fun s => s.status))) .found_dead =
      subs.countP (fun s => s.status = .found_dead) :=
    getD0_groupCounts_map _ _ _
  constructor
  · simp only [SubmissionRepository.summarize, hfa, hfd]
    by_cases h : subs.length = 0 <;> simp [h, Nat.pos_of_ne_zero]
  · intro hnone
    have h1 : subs.countP (fun s => s.status = .found_alive) = 0 := by
      rw [List.countP_eq_zero]
      intro s hs
      simpa using (hnone s hs).1
    have h2 : subs.countP (fun s => s.status = .found_dead) = 0 := by
      rw [List.countP_eq_zero]
      intro s hs
      simpa using (hnone s hs).2
    simp only [SubmissionRepository.summarize, hfa, hfd, h1, h2]
    by_cases h : 0 < subs.length <;> simp [h]

/-- A concrete submission row used by witnesses and counterexamples. -/
def subEx (id : Nat) (st : SubStatus) (y m : Nat)
    (imgs : Option (List String)) : Submission :=
  { id := id, title := "t", full_name := "n", dob := none, gender := none
    race := none, height := none, weight := none, province := none
    description := none, status := st, last_seen_address := none
    last_seen_place_id := none, last_seen_lat := none, last_seen_lng := none
    images := imgs, user_id := some 1, created_at := ⟨y, m, 0⟩ }

/-- Witness for C3 at a concrete table: one pending and one published
submission, no `found_*` status, so the computed found rate is `0`. -/
theorem C3_found_rate_witness :
    (SubmissionRepository.summarize
      [subEx 1 .pending 2024 5 none, subEx 2 .published 2024 6 none]
      2024 7).found_rate = 0 :=
  (C3_found_rate _ 2024 7).2 (by decide)

/-! ## C4: average images per submission -/

theorem avgImagesFold_go (ls : List (Option (List String))) (a b : Nat) :
    ls.foldl
      (fun acc imgs =>
        match imgs with
        | none => acc
        | some l => (acc.1 + l.length, acc.2 + 1))
      (a, b) =
    (a + ((ls.filterMap id).map List.length).sum, b + (ls.filterMap id).length) := by
  induction ls generalizing a b with
  | nil => simp
  | cons hd tl ih =>
    cases hd with
    | none => simp [List.foldl_cons, ih]
    | some l => simp [List.foldl_cons, ih]; omega

theorem avgImagesFold_eq (ls : List (Option (List String))) :
    avgImagesFold ls =
      (((ls.filterMap id).map List.length).sum, (ls.filterMap id).length) := by
  unfold avgImagesFold
  rw [avgImagesFold_go]
  simp

/-- C4: `avg_images_per_submission` is computed over the submissions
whose image list is non-null only — null lists reach neither the total
image count nor the denominator — and it is `0` when no submission has
a non-null image list (in particular when there are no submissions). -/
theorem C4_avg_images (subs : List Submission) (nowY nowM : Int) :
    ((SubmissionRepository.summarize subs nowY nowM).avg_images_per_submission =
      if (subs.filterMap (fun s => s.images)).length = 0 then 0
      else (((subs.filterMap (fun s => s.images)).map List.length).sum : ℚ) /
           ((subs.filterMap (fun s => s.images)).length : ℚ)) ∧
    ((∀ s ∈ subs, s.images = none) →
      (SubmissionRepository.summarize subs nowY nowM).avg_images_per_submission = 0) := by
  have hmap : (subs.map (fun s => s.images)).filterMap id =
      subs.filterMap (fun s => s.images) := by
    rw [List.filterMap_map]
    rfl
  have hfold := avgImagesFold_eq (subs.map (fun s => s.images))
  rw [hmap] at hfold
  constructor
  · simp only [SubmissionRepository.summarize, hfold]
    by_cases h : (subs.filterMap (fun s => s.images)).length = 0 <;>
      simp [h, Nat.pos_of_ne_zero]
  · intro hall
    have hempty : subs.filterMap (fun s => s.images) = [] := by
      rw [List.filterMap_eq_nil_iff]
      intro s hs
      rw [hall s hs]
    simp [SubmissionRepository.summarize, hfold, hempty]

/-- Witness for C4: two submissions whose image lists are null and no
other submissions give an average of `0`. -/
theorem C4_avg_images_witness :
    (SubmissionRepository.summarize
      [subEx 1 .pending 2024 5 none, subEx 2 .published 2024 6 none]
      2024 7).avg_images_per_submission = 0 :=
  (C4_avg_images _ 2024 7).2 (by decide)

/-! ## C5: submission listing pagination and order -/

theorem sortByCreatedDesc_sorted (subs : List Submission) :
    List.Pairwise
      (fun a b => DTime.le b.created_at a.created_at = true)
      (sortByCreatedDesc subs) := by
  unfold sortByCreatedDesc
  apply List.sorted_mergeSort
  · exact fun a b c hab hbc => DTime.le_trans _ _ _ hbc hab
  · exact fun a b => DTime.le_total b.created_at a.created_at

/-- C5: the listing endpoint clamps `limit` to `[1, 1000]` and `page`
to at least 1 before deriving the offset; consequently at most
`max 1 (min limit 1000)` — never more than 1000 — items come back, a
request with `limit = 5000` included, and the result is ordered by
`created_at` descending. -/
theorem C5_list_pagination (subs : List Submission) (page limit : Int) :
    (list_submissions subs page limit).length ≤ 1000 ∧
    (list_submissions subs page limit).length ≤ (max 1 (min limit 1000)).toNat ∧
    (1 ≤ max 1 (min limit 1000) ∧ max 1 (min limit 1000) ≤ 1000 ∧
      1 ≤ max 1 page) ∧
    (list_submissions subs page 5000).length ≤ 1000 ∧
    List.Pairwise
      (fun a b => DTime.le b.created_at a.created_at = true)
      (list_submissions subs page limit) := by
  have hlen : ∀ L P : Int, (list_submissions subs P L).length ≤
      (max 0 (min (max 0 (min (max 1 (min L 1000)) 1000)) 1000)).toNat := by
    intro L P
    simp only [list_submissions, SubmissionService.list,
      SubmissionRepository.list, List.length_take]
    omega
  refine ⟨?_, ?_, ⟨?_, ?_, ?_⟩, ?_, ?_⟩
  · have := hlen limit page
    omega
  · have := hlen limit page
    omega
  · omega
  · omega
  · omega
  · have := hlen 5000 page
    omega
  · simp only [list_submissions, SubmissionService.list,
      SubmissionRepository.list]
    exact List.Pairwise.sublist
      ((List.take_sublist _ _).trans (List.drop_sublist _ _))
      (sortByCreatedDesc_sorted subs)

/-! ## C6: monthly timeline -/

/-- The loop-index-to-month computation of the timeline is calendar
subtraction: entry `i` is the month `i` months before the current one,
and its month number stays in `[1, 12]`. -/
theorem timelineMonth_spec (Y M : Int) (i : Nat) (h1 : 1 ≤ M) (h2 : M ≤ 12)
    (hi : i ≤ 11) :
    1 ≤ (timelineMonth Y M i).2 ∧ (timelineMonth Y M i).2 ≤ 12 ∧
    12 * (timelineMonth Y M i).1 + (timelineMonth Y M i).2 =
      12 * Y + M - (i : Int) := by
  unfold timelineMonth
  by_cases h : (0 : Int) < M - (i : Int)
  · have ha : (M - (i : Int) - 1) % 12 = M - (i : Int) - 1 :=
      Int.emod_eq_of_lt (by omega) (by omega)
    simp only [h, if_pos]
    rw [ha]
    omega
  · have ha : (M - (i : Int) - 1) % 12 = M - (i : Int) - 1 + 12 := by
      have h12 : (M - (i : Int) - 1 + 12 * 1) % 12 = (M - (i : Int) - 1) % 12 :=
        Int.add_mul_emod_self_left (M - (i : Int) - 1) 12 1
      have hlt : (M - (i : Int) - 1 + 12) % 12 = M - (i : Int) - 1 + 12 :=
        Int.emod_eq_of_lt (by omega) (by omega)
      calc (M - (i : Int) - 1) % 12
          = (M - (i : Int) - 1 + 12 * 1) % 12 := h12.symm
        _ = (M - (i : Int) - 1 + 12) % 12 := by ring_nf
        _ = M - (i : Int) - 1 + 12 := hlt
    simp only [h, if_neg, if_false]
    rw [ha]
    omega

/-- C6: `monthly_new` has exactly 12 entries; the entry at position `j`
(oldest first) is the calendar month `11 - j` months before the current
month, keyed `"YYYY-MM"`, and its count is the number of submissions
whose `created_at` falls in that month — `0` when there are none. -/
theorem C6_monthly_timeline (subs : List Submission) (nowY nowM : Int)
    (h1 : 1 ≤ nowM) (h2 : nowM ≤ 12) :
    ((SubmissionRepository.summarize subs nowY nowM).monthly_new).length = 12 ∧
    (∀ j : Nat, j < 12 →
      ∃ y m : Int, 1 ≤ m ∧ m ≤ 12 ∧
        12 * y + m = 12 * nowY + nowM - (11 - (j : Int)) ∧
        ((SubmissionRepository.summarize subs nowY nowM).monthly_new)[j]? =
          some { month := fmtYYYYMM y m
                 count := subs.countP (fun s => createdMonth s = (y, m)) }) := by
  have hmn : (SubmissionRepository.summarize subs nowY nowM).monthly_new =
      monthlyNew subs nowY nowM := rfl
  rw [hmn]
  constructor
  · simp [monthlyNew]
  · intro j hj
    obtain ⟨hm1, hm2, heq⟩ :=
      timelineMonth_spec nowY nowM (11 - j) h1 h2 (by omega)
    refine ⟨(timelineMonth nowY nowM ((11 : Nat) - j)).1,
      (timelineMonth nowY nowM ((11 : Nat) - j)).2, hm1, hm2, ?_, ?_⟩
    · rw [heq]
      omega
    · rw [monthlyNew, List.getElem?_map, List.getElem?_range hj,
        Option.map_some']
      refine congrArg some (congrArg (MonthCount.mk _) ?_)
      rw [getD0_groupCounts_map]

/-- Witness for C6 at a concrete state: two submissions in May 2024 and
one in June 2023 (13 months back, outside the window), current month
July 2024. -/
theorem C6_monthly_timeline_witness :
    ((SubmissionRepository.summarize
        [subEx 1 .pending 2024 5 none, subEx 2 .published 2024 5 none,
         subEx 3 .pending 2023 6 none]
        2024 7).monthly_new).length = 12 ∧
    ∃ y m : Int, 1 ≤ m ∧ m ≤ 12 ∧
      12 * y + m = 12 * 2024 + 7 - (11 - (9 : Int)) ∧
      ((SubmissionRepository.summarize
          [subEx 1 .pending 2024 5 none, subEx 2 .published 2024 5 none,
           subEx 3 .pending 2023 6 none]
          2024 7).monthly_new)[(9 : Nat)]? =
        some { month := fmtYYYYMM y m
               count := [subEx 1 .pending 2024 5 none,
                 subEx 2 .published 2024 5 none,
                 subEx 3 .pending 2023 6 none].countP
                   (fun s => createdMonth s = (y, m)) } :=
  ⟨(C6_monthly_timeline _ 2024 7 (by decide) (by decide)).1,
   (C6_monthly_timeline _ 2024 7 (by decide) (by decide)).2 9 (by decide)⟩

/-! ## C1: TTL caching of the summary -/

/-- Looking a key up right after it was stored succeeds while the TTL
has not elapsed, returning the stored value and leaving the map
untouched. -/
theorem TTLCache.get_set (c : TTLCacheData) (now t : Nat) (k : CacheKey)
    (v : Summary) (ttl : Nat) (ht : t ≤ now + ttl) :
    TTLCache.get (TTLCache.set c now k v ttl) t k =
      (some v, TTLCache.set c now k v ttl) := by
  unfold TTLCache.get TTLCache.set
  have hnone : (c.filter (fun e => ¬ (e.1 = k))).find? (fun e => e.1 = k) =
      none := by
    rw [List.find?_eq_none]
    intro e he
    have h2 := (List.mem_filter.mp he).2
    simp only [decide_not, Bool.not_eq_true', decide_eq_false_iff_not] at h2
    simpa using h2
  rw [List.find?_append, hnone]
  simp [ht]

/-- The claim that any two `SubmissionService.summarize` calls within
60 seconds share the cached value is false on the code: the cache key
contains the `args` tuple `(self,)`, so calls through two distinct
service instances (as every request makes, constructing a fresh
`SubmissionService`) use different keys, and the second call recomputes.
Here caller 0 populates the cache at `t = 0` and caller 1 at `t = 10`
misses it. -/
theorem C1_counterexample :
    ¬ (∀ (i₁ i₂ t₁ t₂ : Nat) (db₁ db₂ : List Submission) (y₁ m₁ y₂ m₂ : Int),
        t₁ ≤ t₂ → t₂ ≤ t₁ + 60 →
        (SubmissionService.summarizeCached
            (SubmissionService.summarizeCached [] t₁ i₁ db₁ y₁ m₁).2.1
            t₂ i₂ db₂ y₂ m₂).1 =
          (SubmissionService.summarizeCached [] t₁ i₁ db₁ y₁ m₁).1 ∧
        (SubmissionService.summarizeCached
            (SubmissionService.summarizeCached [] t₁ i₁ db₁ y₁ m₁).2.1
            t₂ i₂ db₂ y₂ m₂).2.2 = false) := by
  intro h
  have h2 := (h 0 1 0 10 [] [] 2024 1 2024 1 (by decide) (by decide)).2
  exact absurd h2 (by decide)

/-- C1 (amended): two `summarize` calls through the same cache key —
the same `SubmissionService` instance, hence the same `args` — the
first of which misses the cache, behave as claimed: a second call
within 60 seconds returns the value the first call cached, without
re-running the aggregation, even when the submission table (and the
clock driving the timeline) changed in between. -/
theorem C1_ttl_cache_same_key (c : TTLCacheData) (t₁ t₂ inst : Nat)
    (db₁ db₂ : List Submission) (y₁ m₁ y₂ m₂ : Int)
    (hmiss : (TTLCache.get c t₁ (summarizeKey inst)).1 = none)
    (h12 : t₁ ≤ t₂) (h60 : t₂ ≤ t₁ + 60) :
    (SubmissionService.summarizeCached
        (SubmissionService.summarizeCached c t₁ inst db₁ y₁ m₁).2.1
        t₂ inst db₂ y₂ m₂).1 =
      (SubmissionService.summarizeCached c t₁ inst db₁ y₁ m₁).1 ∧
    (SubmissionService.summarizeCached
        (SubmissionService.summarizeCached c t₁ inst db₁ y₁ m₁).2.1
        t₂ inst db₂ y₂ m₂).2.2 = false := by
  unfold SubmissionService.summarizeCached
  cases hg : TTLCache.get c t₁ (summarizeKey inst) with
  | mk o c' =>
    have ho : o = none := by rw [hg] at hmiss; exact hmiss
    subst ho
    simp only [hg]
    rw [TTLCache.get_set c' t₁ t₂ (summarizeKey inst)
      (SubmissionRepository.summarize db₁ y₁ m₁) 60 (by omega)]
    exact ⟨rfl, rfl⟩

/-- Witness for C1 (amended): instance 0 computes over an empty table
at `t = 0`; the same instance at `t = 30`, with a row inserted in
between, still receives the cached summary without recomputation. -/
theorem C1_ttl_cache_same_key_witness :
    (SubmissionService.summarizeCached
        (SubmissionService.summarizeCached ([] : TTLCacheData) 0 0 [] 2024 1).2.1
        30 0 [subEx 1 .pending 2024 5 none] 2024 2).1 =
      (SubmissionService.summarizeCached ([] : TTLCacheData) 0 0 [] 2024 1).1 ∧
    (SubmissionService.summarizeCached
        (SubmissionService.summarizeCached ([] : TTLCacheData) 0 0 [] 2024 1).2.1
        30 0 [subEx 1 .pending 2024 5 none] 2024 2).2.2 = false :=
  C1_ttl_cache_same_key [] 0 30 0 [] [subEx 1 .pending 2024 5 none]
    2024 1 2024 2 rfl (by decide) (by decide)

/-! ## C7: comment creation and public listing -/

/-- C7: every comment the public creation endpoint stores has status
`pending`, whether or not an image was attached, and the public listing
of any submission contains only `approved` comments — so the freshly
created comment is not publicly visible until approved. -/
theorem C7_comment_moderation (roleNames : List (Option String))
    (sid uid : Nat) (body : String) (image : Option UploadImage)
    (imageUrl : String) (newId : Nat) (now : DTime) (c : CommentRec)
    (hok : create_comment roleNames sid uid body image imageUrl newId now =
      .ok c) :
    c.status = .pending ∧
    (∀ (tbl : List CommentRec) (sid' : Nat),
      (∀ x ∈ CommentService.list_by_submission_public tbl sid',
        x.status = .approved) ∧
      c ∉ CommentService.list_by_submission_public tbl sid') := by
  have happ : ∀ (tbl : List CommentRec) (sid' : Nat) (x : CommentRec),
      x ∈ CommentService.list_by_submission_public tbl sid' →
      x.status = .approved := by
    intro tbl sid' x hx
    unfold CommentService.list_by_submission_public
      CommentRepository.list_by_submission at hx
    rw [List.mem_mergeSort] at hx
    have h2 := (List.mem_filter.mp hx).2
    simp only [Bool.and_eq_true, decide_eq_true_eq] at h2
    exact h2.2
  have hst : c.status = .pending := by
    simp only [create_comment] at hok
    split at hok
    · cases hok
    · split at hok
      · cases hok
        rfl
      · split at hok
        · cases hok
        · split at hok
          · cases hok
          · split at hok
            · cases hok
            · cases hok
              rfl
  refine ⟨hst, fun tbl sid' => ⟨fun x hx => happ tbl sid' x hx, fun hc => ?_⟩⟩
  have h3 := happ tbl sid' c hc
  rw [hst] at h3
  cases h3

/-- Witness for C7: an ordinary user posts a comment without an image;
the stored row is `pending` and absent from the public listing of a
table holding exactly that row. -/
theorem C7_comment_moderation_witness :
    CommentRec.status
        ⟨5, 1, some 2, "hello", none, .pending, none, ⟨2024, 1, 0⟩⟩ =
      .pending ∧
    (⟨5, 1, some 2, "hello", none, .pending, none, ⟨2024, 1, 0⟩⟩ : CommentRec) ∉
      CommentService.list_by_submission_public
        [⟨5, 1, some 2, "hello", none, .pending, none, ⟨2024, 1, 0⟩⟩] 1 := by
  have h := C7_comment_moderation [] 1 2 "hello" none "" 5
    ⟨2024, 1, 0⟩ ⟨5, 1, some 2, "hello", none, .pending, none, ⟨2024, 1, 0⟩⟩ rfl
  exact ⟨h.1,
    (h.2 [⟨5, 1, some 2, "hello", none, .pending, none, ⟨2024, 1, 0⟩⟩] 1).2⟩

/-! ## C8: age-progression fallback -/

theorem trySpaces_eq_none (spaces : List APSpaceAttempt)
    (hfail : ∀ a ∈ spaces, a.out = none) : trySpaces spaces = none := by
  induction spaces with
  | nil => rfl
  | cons a rest ih =>
    have ha := hfail a (List.mem_cons_self a rest)
    simp only [trySpaces, ha]
    exact ih (fun x hx => hfail x (List.mem_cons_of_mem a hx))

theorem apUrl_ne_empty (b f : String) : apUrl b f ≠ "" := by
  intro h
  have hl := congrArg String.length h
  have h23 : ("/files/age_progression/" : String).length = 23 := rfl
  rw [apUrl, String.length_append, String.length_append, h23] at hl
  simp at hl

theorem generate_url_cases (env : APEnv) (b f : String) :
    (generate_age_progression env b f).url = none ∨
    (generate_age_progression env b f).url = some (apUrl b f) := by
  unfold generate_age_progression
  split
  · right
    rfl
  · split
    · left
      rfl
    · split
      · right
        rfl
      · split
        · right
          rfl
        · left
          rfl

/-- The claim that a successful download plus all-Spaces failure always
yields a degraded URL is false on the code: the fallback's own cache
write is inside a `try` whose failure returns `None` (first input), and
`if src_bytes:` skips the fallback entirely when the downloaded body is
the empty byte string, which is falsy (second input). -/
theorem C8_counterexample :
    (¬ (∀ (env : APEnv) (b f : String) (src : List Nat),
        env.cacheHit = false → env.download = some src →
        (∀ a ∈ env.spaces, a.out = none) →
        (generate_age_progression env b f).url ≠ none)) ∧
    (generate_age_progression
        { cacheHit := false, download := some [], spaces := [⟨none, true⟩]
          fallbackSaveOk := true, enhance := id } "b" "f").url = none := by
  constructor
  · intro h
    exact h
      { cacheHit := false, download := some [1], spaces := [⟨none, true⟩]
        fallbackSaveOk := false, enhance := id } "b" "f" [1] rfl rfl
      (by
        intro a ha
        simp only [List.mem_singleton] at ha
        rw [ha])
      rfl
  · rfl

/-- C8 (amended): when every external Space call fails, the source
image was downloaded with a non-empty body, and the fallback cache
write succeeds, `generate_age_progression` signals no error: it caches
the enhanced original bytes and returns the cache URL, which the
endpoint serves as a success.  The endpoint's 502 arises exactly when
the routine returns `None` (a returned URL is never the empty string). -/
theorem C8_fallback_degraded (env : APEnv) (baseUrl fname : String)
    (src : List Nat) (hcache : env.cacheHit = false)
    (hdl : env.download = some src)
    (hfail : ∀ a ∈ env.spaces, a.out = none)
    (hsrc : src ≠ []) (hsave : env.fallbackSaveOk = true) :
    generate_age_progression env baseUrl fname =
      { url := some (apUrl baseUrl fname)
        cachedBytes := some (env.enhance src) } ∧
    ageProgressionRespond (generate_age_progression env baseUrl fname).url =
      .ok (apUrl baseUrl fname) ∧
    (∀ (env2 : APEnv) (b2 f2 : String),
      ageProgressionRespond (generate_age_progression env2 b2 f2).url =
          .error 502 ↔
        (generate_age_progression env2 b2 f2).url = none) := by
  have h1 : generate_age_progression env baseUrl fname =
      { url := some (apUrl baseUrl fname)
        cachedBytes := some (env.enhance src) } := by
    unfold generate_age_progression
    rw [hcache, hdl, trySpaces_eq_none env.spaces hfail]
    simp [hsrc, hsave]
  refine ⟨h1, ?_, ?_⟩
  · rw [h1]
    simp only [ageProgressionRespond]
    rw [if_neg (apUrl_ne_empty baseUrl fname)]
  · intro env2 b2 f2
    rcases generate_url_cases env2 b2 f2 with h | h <;> rw [h]
    · simp [ageProgressionRespond]
    · simp [ageProgressionRespond, apUrl_ne_empty b2 f2]

/-- Witness for C8 (amended): one Space, whose call raises; the source
downloads as `[1, 2]`; the fallback write succeeds. -/
theorem C8_fallback_degraded_witness :
    generate_age_progression
        { cacheHit := false, download := some [1, 2]
          spaces := [⟨none, true⟩], fallbackSaveOk := true, enhance := id }
        "http://h" "ap_1_1.jpg" =
      { url := some (apUrl "http://h" "ap_1_1.jpg")
        cachedBytes := some [1, 2] } ∧
    ageProgressionRespond
        (generate_age_progression
          { cacheHit := false, download := some [1, 2]
            spaces := [⟨none, true⟩], fallbackSaveOk := true, enhance := id }
          "http://h" "ap_1_1.jpg").url =
      .ok (apUrl "http://h" "ap_1_1.jpg") := by
  have h := C8_fallback_degraded
    { cacheHit := false, download := some [1, 2]
      spaces := [⟨none, true⟩], fallbackSaveOk := true, enhance := id }
    "http://h" "ap_1_1.jpg" [1, 2] rfl rfl
    (by
      intro a ha
      simp only [List.mem_singleton] at ha
      rw [ha])
    (by decide) rfl
  exact ⟨h.1, h.2.1⟩

/-! ## C9: update skips `None` fields -/

/-- C9: `SubmissionRepository.update` skips every keyword argument
whose value is `None`, so each such field keeps its stored value, no
nullable field can be driven to null through an update, and the columns
never in the kwargs (`id`, `user_id`, `created_at`) are untouched. -/
theorem C9_update_skips_none (s : Submission) (u : SubmissionUpdate) :
    ((u.title = none →
        (SubmissionRepository.updateFields s u).title = s.title) ∧
      (u.full_name = none →
        (SubmissionRepository.updateFields s u).full_name = s.full_name) ∧
      (u.dob = none → (SubmissionRepository.updateFields s u).dob = s.dob) ∧
      (u.gender = none →
        (SubmissionRepository.updateFields s u).gender = s.gender) ∧
      (u.race = none → (SubmissionRepository.updateFields s u).race = s.race) ∧
      (u.height = none →
        (SubmissionRepository.updateFields s u).height = s.height) ∧
      (u.weight = none →
        (SubmissionRepository.updateFields s u).weight = s.weight) ∧
      (u.province = none →
        (SubmissionRepository.updateFields s u).province = s.province) ∧
      (u.description = none →
        (SubmissionRepository.updateFields s u).description = s.description) ∧
      (u.status = none →
        (SubmissionRepository.updateFields s u).status = s.status) ∧
      (u.last_seen_address = none →
        (SubmissionRepository.updateFields s u).last_seen_address =
          s.last_seen_address) ∧
      (u.last_seen_place_id = none →
        (SubmissionRepository.updateFields s u).last_seen_place_id =
          s.last_seen_place_id) ∧
      (u.last_seen_lat = none →
        (SubmissionRepository.updateFields s u).last_seen_lat =
          s.last_seen_lat) ∧
      (u.last_seen_lng = none →
        (SubmissionRepository.updateFields s u).last_seen_lng =
          s.last_seen_lng) ∧
      (u.images = none →
        (SubmissionRepository.updateFields s u).images = s.images)) ∧
    (((SubmissionRepository.updateFields s u).dob = none → s.dob = none) ∧
      ((SubmissionRepository.updateFields s u).gender = none →
        s.gender = none) ∧
      ((SubmissionRepository.updateFields s u).race = none → s.race = none) ∧
      ((SubmissionRepository.updateFields s u).height = none →
        s.height = none) ∧
      ((SubmissionRepository.updateFields s u).weight = none →
        s.weight = none) ∧
      ((SubmissionRepository.updateFields s u).province = none →
        s.province = none) ∧
      ((SubmissionRepository.updateFields s u).description = none →
        s.description = none) ∧
      ((SubmissionRepository.updateFields s u).last_seen_address = none →
        s.last_seen_address = none) ∧
      ((SubmissionRepository.updateFields s u).last_seen_place_id = none →
        s.last_seen_place_id = none) ∧
      ((SubmissionRepository.updateFields s u).last_seen_lat = none →
        s.last_seen_lat = none) ∧
      ((SubmissionRepository.updateFields s u).last_seen_lng = none →
        s.last_seen_lng = none) ∧
      ((SubmissionRepository.updateFields s u).images = none →
        s.images = none)) ∧
    ((SubmissionRepository.updateFields s u).id = s.id ∧
      (SubmissionRepository.updateFields s u).user_id = s.user_id ∧
      (SubmissionRepository.updateFields s u).created_at = s.created_at) := by
  refine ⟨?_, ?_, rfl, rfl, rfl⟩
  · refine ⟨?_, ?_, ?_, ?_, ?_, ?_, ?_, ?_, ?_, ?_, ?_, ?_, ?_, ?_, ?_⟩ <;>
      (intro h; simp [SubmissionRepository.updateFields, h])
  · refine ⟨?_, ?_, ?_, ?_, ?_, ?_, ?_, ?_, ?_, ?_, ?_, ?_⟩
    · cases hu : u.dob <;> simp [SubmissionRepository.updateFields, hu]
    · cases hu : u.gender <;> simp [SubmissionRepository.updateFields, hu]
    · cases hu : u.race <;> simp [SubmissionRepository.updateFields, hu]
    · cases hu : u.height <;> simp [SubmissionRepository.updateFields, hu]
    · cases hu : u.weight <;> simp [SubmissionRepository.updateFields, hu]
    · cases hu : u.province <;> simp [SubmissionRepository.updateFields, hu]
    · cases hu : u.description <;>
        simp [SubmissionRepository.updateFields, hu]
    · cases hu : u.last_seen_address <;>
        simp [SubmissionRepository.updateFields, hu]
    · cases hu : u.last_seen_place_id <;>
        simp [SubmissionRepository.updateFields, hu]
    · cases hu : u.last_seen_lat <;>
        simp [SubmissionRepository.updateFields, hu]
    · cases hu : u.last_seen_lng <;>
        simp [SubmissionRepository.updateFields, hu]
    · cases hu : u.images <;> simp [SubmissionRepository.updateFields, hu]

/-- An update request supplying only a new status, as the moderation
flow sends. -/
def updEx : SubmissionUpdate :=
  { title := none, full_name := none, dob := none, gender := none
    race := none, height := none, weight := none, province := none
    description := none, status := some .published
    last_seen_address := none, last_seen_place_id := none
    last_seen_lat := none, last_seen_lng := none, images := none }

/-- Witness for C9: updating a stored submission with a status-only
request leaves its title untouched. -/
theorem C9_update_skips_none_witness :
    (SubmissionRepository.updateFields
        (subEx 1 .pending 2024 5 (some ["u1"])) updEx).title =
      (subEx 1 .pending 2024 5 (some ["u1"])).title :=
  (C9_update_skips_none (subEx 1 .pending 2024 5 (some ["u1"])) updEx).1.1 rfl

/-! ## C10: public single-submission endpoint -/

/-- C10: the endpoint answers 404 exactly when the id has no row or the
row's status lies outside the public set `published`, `found_alive`,
`found_dead`; pending and rejected submissions are thus served exactly
like absent ones. -/
theorem C10_get_submission_404 (tbl : List Submission) (id : Nat) :
    get_submission tbl id = .error 404 ↔
      (SubmissionRepository.get_by_id tbl id = none ∨
        ∃ s, SubmissionRepository.get_by_id tbl id = some s ∧
          s.status ∉ publicStatuses) := by
  unfold get_submission
  cases hg : SubmissionRepository.get_by_id tbl id with
  | none => simp
  | some s =>
    by_cases hst : s.status ∈ publicStatuses
    · simp [hst]
    · simp [hst]

/-- Witness for C10: a stored but still-pending submission is invisible:
the endpoint 404s on its id. -/
theorem C10_get_submission_404_witness :
    get_submission [subEx 1 .pending 2024 5 none] 1 = .error 404 :=
  (C10_get_submission_404 [subEx 1 .pending 2024 5 none] 1).mpr
    (Or.inr ⟨subEx 1 .pending 2024 5 none, rfl, by decide⟩)

end FindME
